import Mathlib

/-!
Verification of `disease_susceptibility_predictor.py`.

Shallow embedding of the domain logic and storage layer:
* `calculate_disease_risk` — the pure scoring function (lines 122–222),
  transcribed statement by statement; Python numbers are modelled as `ℚ`,
  the accumulated integer scores as `ℤ`, the Python dict of risks as an
  insertion-ordered association list.
* user store (`create_user`, `authenticate_user`, lines 82–119) and
  prediction store (`save_prediction`, `get_user_predictions`,
  lines 224–260) — the sqlite tables are modelled as lists of rows;
  SHA-256 is modelled as an abstract hash parameter.
-/

namespace DiseasePredictor

/-- The patient-data dictionary assembled by the prediction form
(source lines 445–462).  Required keys are plain fields; the two keys the
scoring / saving code reads through `data.get` with a default (`hba1c`,
default 0) or that may be absent (`family_history`, default empty string)
are `Option` fields. -/
structure PatientData where
  patient_name : String
  age : ℚ
  gender : String
  bmi : ℚ
  blood_pressure_systolic : ℚ
  blood_pressure_diastolic : ℚ
  cholesterol_total : ℚ
  cholesterol_hdl : ℚ
  cholesterol_ldl : ℚ
  blood_sugar_fasting : ℚ
  blood_sugar_random : ℚ
  hba1c : Option ℚ
  smoking_status : String
  alcohol_consumption : String
  exercise_frequency : String
  family_history : Option String

/-- Does the first list occur at the head of the second?  Auxiliary for
the model of the Python substring operator. -/
def beginsWith : List Char → List Char → Bool
  | [], _ => true
  | _ :: _, [] => false
  | a :: as, b :: bs => a == b && beginsWith as bs

/-- Does `needle` occur contiguously inside the second list? -/
def hasSubList (needle : List Char) : List Char → Bool
  | [] => needle.isEmpty
  | b :: bs => beginsWith needle (b :: bs) || hasSubList needle bs

/-- Model of the Python expression `needle in hay` on strings: contiguous
substring containment. -/
def pyContains (needle hay : String) : Bool :=
  hasSubList needle.data hay.data

/-- Model of the Python method `str.lower` (ASCII case folding, which is
all that the string constants of this program exercise). -/
def pyLower (s : String) : String :=
  ⟨s.data.map Char.toLower⟩

/-- The family-history test used four times by the scoring function: the
needle is sought in the lowered family-history text, where a missing key
defaults to the empty string. -/
def famHas (needle : String) (fh : Option String) : Bool :=
  pyContains needle (pyLower (fh.getD ""))

/-- Recommendation string literals of the source, in order of appearance. -/
def recBP : String := "Monitor blood pressure regularly and consider medication if advised by doctor"

def recCholesterol : String := "Follow a low-cholesterol diet and consider statin therapy"

def recWeight : String := "Weight management through diet and exercise"

def recQuitSmoking : String := "Quit smoking immediately - seek professional help if needed"

def recEndocrinologist : String := "Immediate consultation with endocrinologist required"

def recMonitorSugar : String := "Monitor blood sugar levels and follow diabetic-friendly diet"

def recExercise : String := "Increase physical activity to at least 150 minutes per week"

def recAlcohol : String := "Reduce alcohol consumption"

def recHealthy : String := "Maintain current healthy lifestyle"

def recCheckups : String := "Regular health check-ups every 6-12 months"

def recDiet : String := "Follow a balanced diet rich in fruits and vegetables"

/-- Result of the scoring function: the `risks` dict (insertion-ordered) and
the `recommendations` list. -/
structure RiskResult where
  risks : List (String × ℤ)
  recommendations : List String
deriving DecidableEq

/-- Transcription of `calculate_disease_risk` (source lines 122–222).
Each Python statement becomes one (re)binding; an `if` with two effects
(`risk += k` and `recommendations.append r`) becomes two conditionals on
the same test. -/
def calculate_disease_risk (data : PatientData) : RiskResult :=
  let risks : List (String × ℤ) := []
  let recommendations : List String := []
  -- Cardiovascular Disease Risk
  let cv_risk : ℤ := 0
  let cv_risk := if data.age > 45 then cv_risk + 20 else cv_risk
  let cv_risk := if pyLower data.gender = "male" then cv_risk + 10 else cv_risk
  let cv_risk := if data.blood_pressure_systolic > 140 ∨ data.blood_pressure_diastolic > 90 then cv_risk + 25 else cv_risk
  let recommendations := if data.blood_pressure_systolic > 140 ∨ data.blood_pressure_diastolic > 90 then recommendations ++ [recBP] else recommendations
  let cv_risk := if data.cholesterol_total > 240 then cv_risk + 20 else cv_risk
  let recommendations := if data.cholesterol_total > 240 then recommendations ++ [recCholesterol] else recommendations
  let cv_risk := if data.cholesterol_hdl < 40 then cv_risk + 15 else cv_risk
  let cv_risk := if data.bmi > 30 then cv_risk + 15 else cv_risk
  let recommendations := if data.bmi > 30 then recommendations ++ [recWeight] else recommendations
  let cv_risk := if data.smoking_status ∈ ["Current smoker", "Heavy smoker"] then cv_risk + 30 else cv_risk
  let recommendations := if data.smoking_status ∈ ["Current smoker", "Heavy smoker"] then recommendations ++ [recQuitSmoking] else recommendations
  let cv_risk := if famHas "heart disease" data.family_history then cv_risk + 20 else cv_risk
  let risks := risks ++ [("Cardiovascular Disease", min cv_risk 100)]
  -- Diabetes Risk
  let diabetes_risk : ℤ := 0
  let diabetes_risk := if data.age > 45 then diabetes_risk + 15 else diabetes_risk
  let diabetes_risk := if data.bmi > 25 then diabetes_risk + 20 else diabetes_risk
  let diabetes_risk :=
    if data.blood_sugar_fasting > 126 then diabetes_risk + 40
    else if data.blood_sugar_fasting > 100 then diabetes_risk + 25
    else diabetes_risk
  let recommendations :=
    if data.blood_sugar_fasting > 126 then recommendations ++ [recEndocrinologist]
    else if data.blood_sugar_fasting > 100 then recommendations ++ [recMonitorSugar]
    else recommendations
  let diabetes_risk := if data.hba1c.getD 0 > 6.5 then diabetes_risk + 35 else diabetes_risk
  let diabetes_risk := if famHas "diabetes" data.family_history then diabetes_risk + 25 else diabetes_risk
  let diabetes_risk := if data.exercise_frequency ∈ ["Never", "Rarely"] then diabetes_risk + 15 else diabetes_risk
  let recommendations := if data.exercise_frequency ∈ ["Never", "Rarely"] then recommendations ++ [recExercise] else recommendations
  let risks := risks ++ [("Type 2 Diabetes", min diabetes_risk 100)]
  -- Hypertension Risk
  let hypertension_risk : ℤ := 0
  let hypertension_risk := if data.blood_pressure_systolic > 120 ∨ data.blood_pressure_diastolic > 80 then hypertension_risk + 30 else hypertension_risk
  let hypertension_risk := if data.age > 50 then hypertension_risk + 20 else hypertension_risk
  let hypertension_risk := if data.bmi > 25 then hypertension_risk + 15 else hypertension_risk
  let hypertension_risk := if data.alcohol_consumption ∈ ["Heavy drinker", "Daily"] then hypertension_risk + 20 else hypertension_risk
  let recommendations := if data.alcohol_consumption ∈ ["Heavy drinker", "Daily"] then recommendations ++ [recAlcohol] else recommendations
  let hypertension_risk := if famHas "hypertension" data.family_history then hypertension_risk + 25 else hypertension_risk
  let risks := risks ++ [("Hypertension", min hypertension_risk 100)]
  -- Metabolic Syndrome Risk
  let metabolic_risk : ℤ := 0
  let metabolic_risk := if data.bmi > 30 then metabolic_risk + 25 else metabolic_risk
  let metabolic_risk := if data.blood_sugar_fasting > 100 then metabolic_risk + 20 else metabolic_risk
  let metabolic_risk := if data.cholesterol_hdl < 50 then metabolic_risk + 15 else metabolic_risk
  let metabolic_risk := if data.blood_pressure_systolic > 130 then metabolic_risk + 20 else metabolic_risk
  let risks := risks ++ [("Metabolic Syndrome", min metabolic_risk 100)]
  -- Stroke Risk
  let stroke_risk : ℤ := 0
  let stroke_risk := if data.age > 55 then stroke_risk + 20 else stroke_risk
  let stroke_risk := if data.blood_pressure_systolic > 140 then stroke_risk + 25 else stroke_risk
  let stroke_risk := if data.smoking_status ∈ ["Current smoker", "Heavy smoker"] then stroke_risk + 25 else stroke_risk
  let stroke_risk := if famHas "stroke" data.family_history then stroke_risk + 30 else stroke_risk
  let risks := risks ++ [("Stroke", min stroke_risk 100)]
  -- General recommendations
  let recommendations := if recommendations = [] then recommendations ++ [recHealthy] else recommendations
  let recommendations := recommendations ++ [recCheckups]
  let recommendations := recommendations ++ [recDiet]
  { risks := risks, recommendations := recommendations }

/-- The glucose contribution of the diabetes block: the `if fasting > 126 /
elif fasting > 100` chain (source lines 158–163), points part. -/
def diabetes_glucose_points (g : ℚ) : ℤ :=
  if g > 126 then 40 else if g > 100 then 25 else 0

/-- The glucose contribution of the diabetes block, recommendations part. -/
def diabetes_glucose_recs (g : ℚ) : List String :=
  if g > 126 then [recEndocrinologist] else if g > 100 then [recMonitorSugar] else []

/-- The HbA1c contribution to the diabetes score: an HbA1c value (read
with default 0) above 6.5 adds 35 (source lines 164–165). -/
def hba1c_points (hb : Option ℚ) : ℤ :=
  if hb.getD 0 > 6.5 then 35 else 0

/-- The cardiovascular score as the sum of its eight contributions. -/
def cv_risk_score (d : PatientData) : ℤ :=
  (if d.age > 45 then 20 else 0)
  + (if pyLower d.gender = "male" then 10 else 0)
  + (if d.blood_pressure_systolic > 140 ∨ d.blood_pressure_diastolic > 90 then 25 else 0)
  + (if d.cholesterol_total > 240 then 20 else 0)
  + (if d.cholesterol_hdl < 40 then 15 else 0)
  + (if d.bmi > 30 then 15 else 0)
  + (if d.smoking_status ∈ ["Current smoker", "Heavy smoker"] then 30 else 0)
  + (if famHas "heart disease" d.family_history then 20 else 0)

/-- The diabetes score as the sum of its contributions. -/
def diabetes_risk_score (d : PatientData) : ℤ :=
  (if d.age > 45 then 15 else 0)
  + (if d.bmi > 25 then 20 else 0)
  + diabetes_glucose_points d.blood_sugar_fasting
  + hba1c_points d.hba1c
  + (if famHas "diabetes" d.family_history then 25 else 0)
  + (if d.exercise_frequency ∈ ["Never", "Rarely"] then 15 else 0)

/-- The hypertension score as the sum of its contributions. -/
def hypertension_risk_score (d : PatientData) : ℤ :=
  (if d.blood_pressure_systolic > 120 ∨ d.blood_pressure_diastolic > 80 then 30 else 0)
  + (if d.age > 50 then 20 else 0)
  + (if d.bmi > 25 then 15 else 0)
  + (if d.alcohol_consumption ∈ ["Heavy drinker", "Daily"] then 20 else 0)
  + (if famHas "hypertension" d.family_history then 25 else 0)

/-- The metabolic-syndrome score as the sum of its contributions. -/
def metabolic_risk_score (d : PatientData) : ℤ :=
  (if d.bmi > 30 then 25 else 0)
  + (if d.blood_sugar_fasting > 100 then 20 else 0)
  + (if d.cholesterol_hdl < 50 then 15 else 0)
  + (if d.blood_pressure_systolic > 130 then 20 else 0)

/-- The stroke score as the sum of its contributions. -/
def stroke_risk_score (d : PatientData) : ℤ :=
  (if d.age > 55 then 20 else 0)
  + (if d.blood_pressure_systolic > 140 then 25 else 0)
  + (if d.smoking_status ∈ ["Current smoker", "Heavy smoker"] then 25 else 0)
  + (if famHas "stroke" d.family_history then 30 else 0)

/-- Recommendations triggered inside the cardiovascular block, in source
order. -/
def cv_recs (d : PatientData) : List String :=
  (if d.blood_pressure_systolic > 140 ∨ d.blood_pressure_diastolic > 90 then [recBP] else [])
  ++ (if d.cholesterol_total > 240 then [recCholesterol] else [])
  ++ (if d.bmi > 30 then [recWeight] else [])
  ++ (if d.smoking_status ∈ ["Current smoker", "Heavy smoker"] then [recQuitSmoking] else [])

/-- Recommendations triggered inside the diabetes block, in source order. -/
def diabetes_recs (d : PatientData) : List String :=
  diabetes_glucose_recs d.blood_sugar_fasting
  ++ (if d.exercise_frequency ∈ ["Never", "Rarely"] then [recExercise] else [])

/-- Recommendations triggered inside the hypertension block. -/
def hypertension_recs (d : PatientData) : List String :=
  if d.alcohol_consumption ∈ ["Heavy drinker", "Daily"] then [recAlcohol] else []

/-- The metabolic block triggers no recommendations. -/
def metabolic_recs (_ : PatientData) : List String := []

/-- The stroke block triggers no recommendations. -/
def stroke_recs (_ : PatientData) : List String := []

/-! ## Storage layer

The two sqlite tables are modelled as lists of rows plus the autoincrement
counter.  `hashlib.sha256(...).hexdigest()` is modelled as an abstract
function parameter `hashFn`; every theorem about the credential store holds
for an arbitrary hash function. -/

/-- A row of the `users` table (source lines 25–37). -/
structure UserRow where
  id : Nat
  username : String
  email : String
  password_hash : String
  full_name : String
  date_of_birth : String
  gender : String
  created_at : Nat
  last_login : Option Nat
deriving DecidableEq

/-- The `users` table with its autoincrement counter. -/
structure UsersDB where
  rows : List UserRow
  next_id : Nat
deriving DecidableEq

/-- The user-facing dict returned by a successful login (source line 116). -/
structure UserInfo where
  id : Nat
  username : String
  full_name : String
  email : String
deriving DecidableEq

/-- Model of `verify_password` (source lines 78–80):
`hash_password(password) == hashed`. -/
def verify_password (hashFn : String → String) (password hashed : String) : Bool :=
  hashFn password == hashed

/-- Model of `create_user` (source lines 82–102).  The sqlite UNIQUE
constraints on `username` and `email` are modelled directly: an insert that
collides raises `IntegrityError` whose message names the violated column
(`users.username` is declared, hence checked, before `users.email`), which
the source maps to the two failure messages.  `created_at DEFAULT
CURRENT_TIMESTAMP` is the `now` parameter; `last_login` starts NULL. -/
def create_user (hashFn : String → String) (db : UsersDB)
    (username email password full_name dob gender : String) (now : Nat) :
    (Bool × String) × UsersDB :=
  if db.rows.any (fun r => r.username == username) then
    ((false, "Username already exists!"), db)
  else if db.rows.any (fun r => r.email == email) then
    ((false, "Email already registered!"), db)
  else
    let row : UserRow :=
      { id := db.next_id, username := username, email := email,
        password_hash := hashFn password, full_name := full_name,
        date_of_birth := dob, gender := gender, created_at := now,
        last_login := none }
    ((true, "Account created successfully!"),
     { rows := db.rows ++ [row], next_id := db.next_id + 1 })

/-- Model of `authenticate_user` (source lines 104–119).
`SELECT ... WHERE username = ?` followed by `fetchone()` is the first row
with that username; on a verified password the field `last_login` of the
row is
updated and the identity dict is returned, otherwise `(False, None)`. -/
def authenticate_user (hashFn : String → String) (db : UsersDB)
    (username password : String) (now : Nat) :
    (Bool × Option UserInfo) × UsersDB :=
  match db.rows.find? (fun r => r.username == username) with
  | some user =>
    if verify_password hashFn password user.password_hash then
      ((true, some { id := user.id, username := username,
                     full_name := user.full_name, email := user.email }),
       { db with rows := db.rows.map (fun r =>
           if r.id = user.id then { r with last_login := some now } else r) })
    else ((false, none), db)
  | none => ((false, none), db)

/-- A row of the `predictions` table (source lines 44–69). -/
structure PredictionRow where
  id : Nat
  user_id : Nat
  patient_name : String
  age : ℚ
  gender : String
  blood_pressure_systolic : ℚ
  blood_pressure_diastolic : ℚ
  cholesterol_total : ℚ
  cholesterol_hdl : ℚ
  cholesterol_ldl : ℚ
  blood_sugar_fasting : ℚ
  blood_sugar_random : ℚ
  hba1c : ℚ
  bmi : ℚ
  smoking_status : String
  alcohol_consumption : String
  exercise_frequency : String
  family_history : String
  predicted_diseases : String
  risk_scores : String
  recommendations : String
  created_at : Nat

/-- The `predictions` table with its autoincrement counter. -/
structure PredictionsDB where
  rows : List PredictionRow
  next_id : Nat

/-- Source line 231: `"; ".join(recommendations)`. -/
def recommendations_str (recs : List String) : String :=
  String.intercalate "; " recs

/-- Source line 232: `", ".join(f"{disease}: {score}%" for ...)`. -/
def predicted_diseases_str (risks : List (String × ℤ)) : String :=
  String.intercalate ", " (risks.map (fun p => p.1 ++ ": " ++ toString p.2 ++ "%"))

/-- Source line 230: `str(risks)`, the Python textual rendering of the dict.
The model serializes the same pairs with `toString`; no claim inspects this
text, only that it is derived from `risks`. -/
def risks_str (risks : List (String × ℤ)) : String :=
  toString risks

/-- Model of `save_prediction` (source lines 224–251).  Every field is read
by subscript except `hba1c`, which is read through `.get` with default 0;
in particular the subscript read of `family_history` raises `KeyError`
when the key is absent, modelled as `none`. -/
def save_prediction (db : PredictionsDB) (user_id : Nat) (patient_data : PatientData)
    (risks : List (String × ℤ)) (recommendations : List String) (now : Nat) :
    Option PredictionsDB :=
  match patient_data.family_history with
  | none => none
  | some fh =>
    let row : PredictionRow :=
      { id := db.next_id, user_id := user_id,
        patient_name := patient_data.patient_name, age := patient_data.age,
        gender := patient_data.gender,
        blood_pressure_systolic := patient_data.blood_pressure_systolic,
        blood_pressure_diastolic := patient_data.blood_pressure_diastolic,
        cholesterol_total := patient_data.cholesterol_total,
        cholesterol_hdl := patient_data.cholesterol_hdl,
        cholesterol_ldl := patient_data.cholesterol_ldl,
        blood_sugar_fasting := patient_data.blood_sugar_fasting,
        blood_sugar_random := patient_data.blood_sugar_random,
        hba1c := patient_data.hba1c.getD 0,
        bmi := patient_data.bmi,
        smoking_status := patient_data.smoking_status,
        alcohol_consumption := patient_data.alcohol_consumption,
        exercise_frequency := patient_data.exercise_frequency,
        family_history := fh,
        predicted_diseases := predicted_diseases_str risks,
        risk_scores := risks_str risks,
        recommendations := recommendations_str recommendations,
        created_at := now }
    some { rows := db.rows ++ [row], next_id := db.next_id + 1 }

/-- Model of `get_user_predictions` (source lines 253–260):
`SELECT * FROM predictions WHERE user_id = ? ORDER BY created_at DESC`. -/
def get_user_predictions (db : PredictionsDB) (user_id : Nat) : List PredictionRow :=
  (db.rows.filter (fun r => r.user_id == user_id)).mergeSort
    (fun a b => decide (b.created_at ≤ a.created_at))

/-- A record with no risk factor triggered: every threshold test of the
scoring function is false on it. -/
def quietRecord : PatientData :=
  { patient_name := "p", age := 30, gender := "Other", bmi := 22,
    blood_pressure_systolic := 110, blood_pressure_diastolic := 70,
    cholesterol_total := 200, cholesterol_hdl := 55, cholesterol_ldl := 100,
    blood_sugar_fasting := 90, blood_sugar_random := 120, hba1c := none,
    smoking_status := "Never smoked", alcohol_consumption := "Never",
    exercise_frequency := "Daily", family_history := none }

/-- A record whose categorical fields are near misses of the triggering
strings: a former smoker, occasional drinker, weekly exerciser. -/
def nearMissRecord : PatientData :=
  { patient_name := "q", age := 30, gender := "Other", bmi := 22,
    blood_pressure_systolic := 110, blood_pressure_diastolic := 70,
    cholesterol_total := 200, cholesterol_hdl := 55, cholesterol_ldl := 100,
    blood_sugar_fasting := 90, blood_sugar_random := 120, hba1c := none,
    smoking_status := "Former smoker", alcohol_consumption := "Occasionally",
    exercise_frequency := "Weekly", family_history := some "" }

/-- A one-user credential store holding the account `alice`. -/
def aliceDB : UsersDB :=
  { rows := [{ id := 1, username := "alice", email := "alice@example.com",
               password_hash := "h", full_name := "Alice", date_of_birth := "1990-01-01",
               gender := "F", created_at := 0, last_login := none }],
    next_id := 2 }

/-! ## Shared lemmas -/

theorem acc_add (c : Prop) [Decidable c] (x a : ℤ) :
    (if c then x + a else x) = x + (if c then a else 0) := by
  split <;> simp

theorem acc_app (c : Prop) [Decidable c] (r : List String) (x : String) :
    (if c then r ++ [x] else r) = r ++ (if c then [x] else []) := by
  split <;> simp

/-- The risks dict produced by the transcription, per-disease. -/
theorem risks_eq (d : PatientData) :
    (calculate_disease_risk d).risks =
      [("Cardiovascular Disease", min (cv_risk_score d) 100),
       ("Type 2 Diabetes", min (diabetes_risk_score d) 100),
       ("Hypertension", min (hypertension_risk_score d) 100),
       ("Metabolic Syndrome", min (metabolic_risk_score d) 100),
       ("Stroke", min (stroke_risk_score d) 100)] := by
  by_cases h126 : d.blood_sugar_fasting > 126
  · have h100 : d.blood_sugar_fasting > 100 := lt_trans (by norm_num) h126
    simp only [calculate_disease_risk, cv_risk_score, diabetes_risk_score,
      diabetes_glucose_points, hba1c_points,
      hypertension_risk_score, metabolic_risk_score, stroke_risk_score,
      h126, h100, acc_add, if_true, if_false, ite_true, ite_false]
    simp only [zero_add, add_zero, List.nil_append, List.append_nil,
      List.append_assoc, List.singleton_append, List.cons_append]
  · by_cases h100 : d.blood_sugar_fasting > 100
    · simp only [calculate_disease_risk, cv_risk_score, diabetes_risk_score,
        diabetes_glucose_points, hba1c_points,
        hypertension_risk_score, metabolic_risk_score, stroke_risk_score,
        h126, h100, acc_add, if_true, if_false, ite_true, ite_false]
      simp only [zero_add, add_zero, List.nil_append, List.append_nil,
        List.append_assoc, List.singleton_append, List.cons_append]
    · simp only [calculate_disease_risk, cv_risk_score, diabetes_risk_score,
        diabetes_glucose_points, hba1c_points,
        hypertension_risk_score, metabolic_risk_score, stroke_risk_score,
        h126, h100, acc_add, if_true, if_false, ite_true, ite_false]
      simp only [zero_add, add_zero, List.nil_append, List.append_nil,
        List.append_assoc, List.singleton_append, List.cons_append]

/-- The recommendation list produced by the transcription: triggered lines
in disease order, the healthy-lifestyle default when none triggered, then
the two fixed closing lines. -/
theorem recs_eq (d : PatientData) :
    (calculate_disease_risk d).recommendations =
      (if cv_recs d ++ diabetes_recs d ++ hypertension_recs d
          ++ metabolic_recs d ++ stroke_recs d = []
       then [recHealthy]
       else cv_recs d ++ diabetes_recs d ++ hypertension_recs d
          ++ metabolic_recs d ++ stroke_recs d)
      ++ [recCheckups, recDiet] := by
  by_cases hC : cv_recs d ++ diabetes_recs d ++ hypertension_recs d
      ++ metabolic_recs d ++ stroke_recs d = []
  · rw [if_pos hC]
    obtain ⟨h4, _⟩ := List.append_eq_nil.mp hC
    obtain ⟨h3, _⟩ := List.append_eq_nil.mp h4
    obtain ⟨h2, hhy⟩ := List.append_eq_nil.mp h3
    obtain ⟨hcv, hdb⟩ := List.append_eq_nil.mp h2
    have hbp : ¬(d.blood_pressure_systolic > 140 ∨ d.blood_pressure_diastolic > 90) := by
      intro h; simp [cv_recs, h] at hcv
    have hchol : ¬(d.cholesterol_total > 240) := by
      intro h; simp [cv_recs, h] at hcv
    have hbmi : ¬(d.bmi > 30) := by
      intro h; simp [cv_recs, h] at hcv
    have hsmoke : ¬(d.smoking_status ∈ ["Current smoker", "Heavy smoker"]) := by
      intro h; simp [cv_recs, h] at hcv
    have hg126 : ¬(d.blood_sugar_fasting > 126) := by
      intro h; simp [diabetes_recs, diabetes_glucose_recs, h] at hdb
    have hg100 : ¬(d.blood_sugar_fasting > 100) := by
      intro h; simp [diabetes_recs, diabetes_glucose_recs, hg126, h] at hdb
    have hex : ¬(d.exercise_frequency ∈ ["Never", "Rarely"]) := by
      intro h; simp [diabetes_recs, h] at hdb
    have halc : ¬(d.alcohol_consumption ∈ ["Heavy drinker", "Daily"]) := by
      intro h; simp [hypertension_recs, h] at hhy
    simp [calculate_disease_risk, hbp, hchol, hbmi, hsmoke, hg126, hg100, hex, halc]
  · rw [if_neg hC]
    by_cases h126 : d.blood_sugar_fasting > 126
    · have h100 : d.blood_sugar_fasting > 100 := lt_trans (by norm_num) h126
      simp only [calculate_disease_risk, h126, h100, acc_app,
        if_true, if_false, ite_true, ite_false]
      simp only [cv_recs, diabetes_recs, hypertension_recs, metabolic_recs,
        stroke_recs, diabetes_glucose_recs, h126, h100,
        if_true, if_false, ite_true, ite_false,
        List.nil_append, List.append_nil, List.append_assoc,
        List.singleton_append, List.cons_append]
      simp only [cv_recs, diabetes_recs, hypertension_recs, metabolic_recs,
        stroke_recs, diabetes_glucose_recs, h126, h100, if_true, if_false,
        ite_true, ite_false, List.nil_append, List.append_nil,
        List.append_assoc, List.singleton_append, List.cons_append] at hC
      simp only [if_neg hC, List.nil_append, List.append_nil, List.append_assoc]
    · by_cases h100 : d.blood_sugar_fasting > 100
      · simp only [calculate_disease_risk, h126, h100, acc_app,
          if_true, if_false, ite_true, ite_false]
        simp only [cv_recs, diabetes_recs, hypertension_recs, metabolic_recs,
          stroke_recs, diabetes_glucose_recs, h126, h100,
          if_true, if_false, ite_true, ite_false,
          List.nil_append, List.append_nil, List.append_assoc,
          List.singleton_append, List.cons_append]
        simp only [cv_recs, diabetes_recs, hypertension_recs, metabolic_recs,
          stroke_recs, diabetes_glucose_recs, h126, h100, if_true, if_false,
          ite_true, ite_false, List.nil_append, List.append_nil,
          List.append_assoc, List.singleton_append, List.cons_append] at hC
        simp only [if_neg hC, List.nil_append, List.append_nil, List.append_assoc]
      · simp only [calculate_disease_risk, h126, h100, acc_app,
          if_true, if_false, ite_true, ite_false]
        simp only [cv_recs, diabetes_recs, hypertension_recs, metabolic_recs,
          stroke_recs, diabetes_glucose_recs, h126, h100,
          if_true, if_false, ite_true, ite_false,
          List.nil_append, List.append_nil, List.append_assoc,
          List.singleton_append, List.cons_append]
        simp only [cv_recs, diabetes_recs, hypertension_recs, metabolic_recs,
          stroke_recs, diabetes_glucose_recs, h126, h100, if_true, if_false,
          ite_true, ite_false, List.nil_append, List.append_nil,
          List.append_assoc, List.singleton_append, List.cons_append] at hC
        simp only [if_neg hC, List.nil_append, List.append_nil, List.append_assoc]

theorem ite_nonneg (c : Prop) [Decidable c] (a : ℤ) (h : 0 ≤ a) :
    0 ≤ if c then a else 0 := by
  split <;> simp [h]

theorem diabetes_glucose_points_nonneg (g : ℚ) : 0 ≤ diabetes_glucose_points g := by
  unfold diabetes_glucose_points; split_ifs <;> norm_num

theorem hba1c_points_nonneg (hb : Option ℚ) : 0 ≤ hba1c_points hb := by
  unfold hba1c_points; split_ifs <;> norm_num

theorem cv_risk_score_nonneg (d : PatientData) : 0 ≤ cv_risk_score d := by
  unfold cv_risk_score
  repeat' apply add_nonneg
  all_goals exact ite_nonneg _ _ (by norm_num)

theorem diabetes_risk_score_nonneg (d : PatientData) : 0 ≤ diabetes_risk_score d := by
  unfold diabetes_risk_score
  repeat' apply add_nonneg
  · exact ite_nonneg _ _ (by norm_num)
  · exact ite_nonneg _ _ (by norm_num)
  · exact diabetes_glucose_points_nonneg _
  · exact hba1c_points_nonneg _
  · exact ite_nonneg _ _ (by norm_num)
  · exact ite_nonneg _ _ (by norm_num)

theorem hypertension_risk_score_nonneg (d : PatientData) : 0 ≤ hypertension_risk_score d := by
  unfold hypertension_risk_score
  repeat' apply add_nonneg
  all_goals exact ite_nonneg _ _ (by norm_num)

theorem metabolic_risk_score_nonneg (d : PatientData) : 0 ≤ metabolic_risk_score d := by
  unfold metabolic_risk_score
  repeat' apply add_nonneg
  all_goals exact ite_nonneg _ _ (by norm_num)

theorem stroke_risk_score_nonneg (d : PatientData) : 0 ≤ stroke_risk_score d := by
  unfold stroke_risk_score
  repeat' apply add_nonneg
  all_goals exact ite_nonneg _ _ (by norm_num)


/-- C1: every returned risk score is an integer in [0, 100]: each per-disease
total is a sum of non-negative fixed contributions starting at 0, clamped to
a maximum of 100. -/
theorem risk_scores_in_range (d : PatientData) (p : String × ℤ)
    (hp : p ∈ (calculate_disease_risk d).risks) : 0 ≤ p.2 ∧ p.2 ≤ 100 := by
  rw [risks_eq] at hp
  simp only [List.mem_cons, List.not_mem_nil, or_false] at hp
  rcases hp with h | h | h | h | h <;> subst h
  · exact ⟨le_min (cv_risk_score_nonneg d) (by norm_num), min_le_right _ _⟩
  · exact ⟨le_min (diabetes_risk_score_nonneg d) (by norm_num), min_le_right _ _⟩
  · exact ⟨le_min (hypertension_risk_score_nonneg d) (by norm_num), min_le_right _ _⟩
  · exact ⟨le_min (metabolic_risk_score_nonneg d) (by norm_num), min_le_right _ _⟩
  · exact ⟨le_min (stroke_risk_score_nonneg d) (by norm_num), min_le_right _ _⟩

/-- Witness for C1 at a concrete record and dict entry. -/
theorem risk_scores_in_range_witness :
    0 ≤ (("Stroke", (0 : ℤ)) : String × ℤ).2 ∧
      (("Stroke", (0 : ℤ)) : String × ℤ).2 ≤ 100 :=
  risk_scores_in_range quietRecord ("Stroke", 0) (by decide)

/-- C2: the two fasting-glucose branches of the diabetes score are mutually
exclusive: glucose > 126 contributes exactly 40 points with the
endocrinologist recommendation; the 25-point branch with the
glucose-monitoring recommendation fires exactly when 100 < glucose ≤ 126;
at glucose = 130 the contribution is 40, never 25; and the diabetes entry
of the returned dict is the clamped sum containing this contribution. -/
theorem diabetes_glucose_branches :
    (∀ g : ℚ, g > 126 →
        diabetes_glucose_points g = 40 ∧ diabetes_glucose_recs g = [recEndocrinologist]) ∧
    (∀ g : ℚ, diabetes_glucose_points g = 25 ↔ (g > 100 ∧ g ≤ 126)) ∧
    (∀ g : ℚ, diabetes_glucose_recs g = [recMonitorSugar] ↔ (g > 100 ∧ g ≤ 126)) ∧
    (diabetes_glucose_points 130 = 40 ∧ diabetes_glucose_points 130 ≠ 25) ∧
    (∀ d : PatientData, (calculate_disease_risk d).risks.lookup "Type 2 Diabetes"
        = some (min (diabetes_risk_score d) 100)) := by
  refine ⟨?_, ?_, ?_, ⟨by norm_num [diabetes_glucose_points], by norm_num [diabetes_glucose_points]⟩, ?_⟩
  · intro g hg
    exact ⟨by simp [diabetes_glucose_points, hg], by simp [diabetes_glucose_recs, hg]⟩
  · intro g
    unfold diabetes_glucose_points
    split_ifs with h1 h2
    · constructor
      · intro h; norm_num at h
      · rintro ⟨_, h⟩; exact absurd h1 (not_lt.mpr h)
    · constructor
      · intro _; exact ⟨h2, not_lt.mp h1⟩
      · intro _; rfl
    · constructor
      · intro h; norm_num at h
      · rintro ⟨h, _⟩; exact absurd h h2
  · intro g
    unfold diabetes_glucose_recs
    split_ifs with h1 h2
    · constructor
      · intro h
        have : recEndocrinologist = recMonitorSugar := by
          simpa using h
        exact absurd this (by decide)
      · rintro ⟨_, h⟩; exact absurd h1 (not_lt.mpr h)
    · constructor
      · intro _; exact ⟨h2, not_lt.mp h1⟩
      · intro _; rfl
    · constructor
      · intro h; simp at h
      · rintro ⟨h, _⟩; exact absurd h h2
  · intro d
    rw [risks_eq]
    rfl

/-- Witness for C2 at glucose 130. -/
theorem diabetes_glucose_branches_witness :
    diabetes_glucose_points 130 = 40 ∧ diabetes_glucose_recs 130 = [recEndocrinologist] :=
  diabetes_glucose_branches.1 130 (by norm_num)

/-- C3: the recommendation list is the triggered lines collected in disease
order (cardiovascular, diabetes, hypertension, metabolic, stroke), with a
single healthy-lifestyle default inserted when nothing triggered, always
followed by exactly the two fixed closing lines in order. -/
theorem recommendation_assembly (d : PatientData) :
    (calculate_disease_risk d).recommendations =
      (if cv_recs d ++ diabetes_recs d ++ hypertension_recs d
          ++ metabolic_recs d ++ stroke_recs d = []
       then [recHealthy]
       else cv_recs d ++ diabetes_recs d ++ hypertension_recs d
          ++ metabolic_recs d ++ stroke_recs d)
      ++ [recCheckups, recDiet] :=
  recs_eq d

/-- Source uses the family-history field only through this lowered default:
absence and the empty string coincide. -/
theorem famHas_none (needle : String) : famHas needle none = famHas needle (some "") := rfl

/-- Case-variants of the family-history text are indistinguishable to the
scoring function once lowered. -/
theorem famHas_congr (needle s t : String) (h : pyLower s = pyLower t) :
    famHas needle (some s) = famHas needle (some t) := by
  unfold famHas
  simp [h]

/-- C4: every family-history test is a case-insensitive substring
containment check on the raw free-text field; an absent field behaves as
the empty string (no match, no error), and records whose family-history
texts agree after lowering are scored identically. -/
theorem family_history_semantics :
    (∀ d : PatientData, d.family_history = none →
        calculate_disease_risk d = calculate_disease_risk { d with family_history := some "" }) ∧
    (famHas "heart disease" none = false ∧ famHas "diabetes" none = false ∧
     famHas "hypertension" none = false ∧ famHas "stroke" none = false) ∧
    (∀ (d : PatientData) (s t : String), pyLower s = pyLower t →
        calculate_disease_risk { d with family_history := some s } =
        calculate_disease_risk { d with family_history := some t }) ∧
    (famHas "heart disease" (some "Heart Disease") = true ∧
     famHas "heart disease" (some "heart disease") = true) := by
  refine ⟨?_, ⟨by decide, by decide, by decide, by decide⟩, ?_, by decide, by decide⟩
  · intro d h
    simp only [calculate_disease_risk, h, famHas_none]
  · intro d s t hst
    have e : ∀ needle, famHas needle (some s) = famHas needle (some t) :=
      fun needle => famHas_congr needle s t hst
    simp only [calculate_disease_risk, e]

/-- Witness for C4: a record with the field absent scores like the same
record with the empty string. -/
theorem family_history_semantics_witness :
    calculate_disease_risk quietRecord =
      calculate_disease_risk { quietRecord with family_history := some "" } :=
  family_history_semantics.1 quietRecord rfl

/-- C5: on the specific record of the spec (age 50, male, 150/70 blood
pressure, total cholesterol 200, HDL 45, BMI 22, never smoked, empty family
history) the Cardiovascular Disease score is exactly 55, regardless of the
fields the cardiovascular block does not read. -/
theorem cv_score_specific (pname : String) (ldl rand fg : ℚ) (hb : Option ℚ)
    (alc ex : String) :
    (calculate_disease_risk
      { patient_name := pname, age := 50, gender := "Male", bmi := 22,
        blood_pressure_systolic := 150, blood_pressure_diastolic := 70,
        cholesterol_total := 200, cholesterol_hdl := 45, cholesterol_ldl := ldl,
        blood_sugar_fasting := fg, blood_sugar_random := rand, hba1c := hb,
        smoking_status := "Never smoked", alcohol_consumption := alc,
        exercise_frequency := ex,
        family_history := some "" }).risks.lookup "Cardiovascular Disease"
      = some 55 := by
  rw [risks_eq]
  have hml : pyLower "Male" = "male" := by decide
  have hsm : "Never smoked" ∉ (["Current smoker", "Heavy smoker"] : List String) := by decide
  have hfh : famHas "heart disease" (some "") = false := by decide
  norm_num [cv_risk_score, hml, hsm, hfh, List.lookup]

/-- C6: a record without the optional HbA1c field scores exactly like the
same record with HbA1c 0; the defaulted value contributes 0 points since
the 35-point branch requires HbA1c > 6.5, and no failure occurs. -/
theorem hba1c_missing_default :
    (∀ d : PatientData, d.hba1c = none →
        calculate_disease_risk d = calculate_disease_risk { d with hba1c := some 0 }) ∧
    hba1c_points none = 0 ∧
    (∀ d : PatientData, d.hba1c = none → hba1c_points d.hba1c = 0) := by
  refine ⟨?_, by norm_num [hba1c_points], ?_⟩
  · intro d h
    simp only [calculate_disease_risk, h, Option.getD_none, Option.getD_some]
  · intro d h
    rw [h]; norm_num [hba1c_points]

/-- Witness for C6. -/
theorem hba1c_missing_default_witness :
    calculate_disease_risk quietRecord =
      calculate_disease_risk { quietRecord with hba1c := some 0 } :=
  hba1c_missing_default.1 quietRecord rfl



/-- C7: the history query returns exactly the rows of the queried account
(a permutation of the ownership filter, hence zero rows for an account with
no submissions and never a row of another account), ordered newest-first by
creation timestamp; each successful save appends exactly one row owned by
the saving account and stamped with the save time. -/
theorem user_predictions_spec (db : PredictionsDB) (uid : Nat) :
    List.Perm (get_user_predictions db uid) (db.rows.filter (fun r => r.user_id == uid)) ∧
    (∀ r, r ∈ get_user_predictions db uid ↔ r ∈ db.rows ∧ r.user_id = uid) ∧
    ((∀ r ∈ db.rows, r.user_id ≠ uid) → get_user_predictions db uid = []) ∧
    List.Pairwise (fun a b => b.created_at ≤ a.created_at) (get_user_predictions db uid) ∧
    (∀ pd risks recs now db2, save_prediction db uid pd risks recs now = some db2 →
        ∃ row, db2.rows = db.rows ++ [row] ∧ row.user_id = uid ∧ row.created_at = now) := by
  refine ⟨List.mergeSort_perm _ _, ?_, ?_, ?_, ?_⟩
  · intro r
    unfold get_user_predictions
    rw [List.Perm.mem_iff (List.mergeSort_perm _ _)]
    simp [List.mem_filter]
  · intro h
    have hnil : db.rows.filter (fun r => r.user_id == uid) = [] :=
      List.filter_eq_nil_iff.mpr (by intro a ha; simpa using h a ha)
    unfold get_user_predictions
    rw [hnil, List.mergeSort_nil]
  · unfold get_user_predictions
    refine List.Pairwise.imp ?_
      (List.sorted_mergeSort ?_ ?_ (db.rows.filter (fun r => r.user_id == uid)))
    · intro a b hab
      exact of_decide_eq_true hab
    · intro a b c hab hbc
      exact decide_eq_true (le_trans (of_decide_eq_true hbc) (of_decide_eq_true hab))
    · intro a b
      simpa [Bool.or_eq_true, decide_eq_true_iff] using Nat.le_total b.created_at a.created_at
  · intro pd risks recs now db2 h
    unfold save_prediction at h
    rcases hfh : pd.family_history with _ | fh
    · rw [hfh] at h; exact absurd h (by simp)
    · rw [hfh] at h
      simp only [Option.some.injEq] at h
      subst h
      exact ⟨_, rfl, rfl, rfl⟩

/-- Witness for C7: empty store, fresh account. -/
theorem user_predictions_spec_witness :
    get_user_predictions { rows := [], next_id := 1 } 1 = [] :=
  (user_predictions_spec { rows := [], next_id := 1 } 1).2.2.1 (by simp)

/-- A registration whose username already occurs in the store fails with
the username-identifying message and leaves the store unchanged. -/
theorem create_user_username_conflict (hashFn : String → String) (db : UsersDB)
    (username email password full_name dob gender : String) (now : Nat)
    (h : ∃ r ∈ db.rows, r.username = username) :
    create_user hashFn db username email password full_name dob gender now
      = ((false, "Username already exists!"), db) := by
  rcases h with ⟨r, hr, he⟩
  unfold create_user
  rw [if_pos (List.any_eq_true.mpr ⟨r, hr, by simp [he]⟩)]

/-- A successful registration leaves a row carrying the new username in the
store. -/
theorem create_user_success_mem (hashFn : String → String) (db : UsersDB)
    (username email password full_name dob gender : String) (now : Nat)
    (h : (create_user hashFn db username email password full_name dob gender now).1.1 = true) :
    ∃ r ∈ (create_user hashFn db username email password full_name dob gender now).2.rows,
      r.username = username := by
  revert h
  simp only [create_user]
  split_ifs with h1 h2
  · intro h; simp at h
  · intro h; simp at h
  · exact fun _ => ⟨_, List.mem_append_right _ (List.mem_singleton_self _), rfl⟩

/-- C8: registering a username that already exists fails with the
username-identifying message and leaves the store unchanged; a fresh
username with an existing email fails with the email-identifying message;
after a successful registration, re-registering the same username fails the
second attempt. The model returns a failure value in every case: no
exception escapes. -/
theorem create_user_conflicts (hashFn : String → String) (db : UsersDB)
    (username email password full_name dob gender : String) (now : Nat) :
    ((∃ r ∈ db.rows, r.username = username) →
        create_user hashFn db username email password full_name dob gender now
          = ((false, "Username already exists!"), db)) ∧
    ((∀ r ∈ db.rows, r.username ≠ username) → (∃ r ∈ db.rows, r.email = email) →
        create_user hashFn db username email password full_name dob gender now
          = ((false, "Email already registered!"), db)) ∧
    (∀ email2 pw2 fn2 dob2 g2 now2,
        (create_user hashFn db username email password full_name dob gender now).1.1 = true →
        create_user hashFn
            (create_user hashFn db username email password full_name dob gender now).2
            username email2 pw2 fn2 dob2 g2 now2
          = ((false, "Username already exists!"),
             (create_user hashFn db username email password full_name dob gender now).2)) := by
  refine ⟨create_user_username_conflict hashFn db
    username email password full_name dob gender now, ?_, ?_⟩
  · intro hno hex
    rcases hex with ⟨r, hr, he⟩
    have h1 : ¬(db.rows.any (fun r => r.username == username) = true) := by
      simp only [List.any_eq_true]
      rintro ⟨s, hs, hb⟩
      exact hno s hs (by simpa using hb)
    unfold create_user
    rw [if_neg h1, if_pos (List.any_eq_true.mpr ⟨r, hr, by simp [he]⟩)]
  · intro email2 pw2 fn2 dob2 g2 now2 hsucc
    exact create_user_username_conflict hashFn _ username email2 pw2 fn2 dob2 g2 now2
      (create_user_success_mem hashFn db
        username email password full_name dob gender now hsucc)
/-- Witness for C8: the second registration of `alice` fails naming the
username. -/
theorem create_user_conflicts_witness :
    create_user (fun s => s) aliceDB "alice" "new@example.com" "pw" "A2" "1991-01-01" "F" 7
      = ((false, "Username already exists!"), aliceDB) :=
  (create_user_conflicts (fun s => s) aliceDB
    "alice" "new@example.com" "pw" "A2" "1991-01-01" "F" 7).1 (by decide)

/-- C9: authentication returns the identical failure value `(False, None)`
both when the username is unknown and when the password is wrong — the two
failure causes are indistinguishable from the result — and returns account
identity exactly on a verified match. -/
theorem authenticate_indistinguishable (hashFn : String → String) (db : UsersDB)
    (username password : String) (now : Nat) :
    (db.rows.find? (fun r => r.username == username) = none →
        (authenticate_user hashFn db username password now).1 = (false, none)) ∧
    (∀ row, db.rows.find? (fun r => r.username == username) = some row →
        verify_password hashFn password row.password_hash = false →
        (authenticate_user hashFn db username password now).1 = (false, none)) ∧
    (∀ (hashFn2 : String → String) (db2 : UsersDB) (u2 p2 : String) (now2 : Nat) row,
        db.rows.find? (fun r => r.username == username) = none →
        db2.rows.find? (fun r => r.username == u2) = some row →
        verify_password hashFn2 p2 row.password_hash = false →
        (authenticate_user hashFn db username password now).1
          = (authenticate_user hashFn2 db2 u2 p2 now2).1) ∧
    ((authenticate_user hashFn db username password now).1.1 = true →
        ∃ row, db.rows.find? (fun r => r.username == username) = some row ∧
          verify_password hashFn password row.password_hash = true ∧
          (authenticate_user hashFn db username password now).1.2
            = some { id := row.id, username := username, full_name := row.full_name,
                     email := row.email }) := by
  have fail1 : ∀ (hf : String → String) (dbx : UsersDB) (u p : String) (n : Nat),
      dbx.rows.find? (fun r => r.username == u) = none →
      (authenticate_user hf dbx u p n).1 = (false, none) := by
    intro hf dbx u p n h
    unfold authenticate_user
    rw [h]
  have fail2 : ∀ (hf : String → String) (dbx : UsersDB) (u p : String) (n : Nat) row,
      dbx.rows.find? (fun r => r.username == u) = some row →
      verify_password hf p row.password_hash = false →
      (authenticate_user hf dbx u p n).1 = (false, none) := by
    intro hf dbx u p n row h hv
    unfold authenticate_user
    rw [h]
    simp [hv]
  refine ⟨fail1 hashFn db username password now,
         fail2 hashFn db username password now, ?_, ?_⟩
  · intro hf2 db2 u2 p2 now2 row h1 h2 hv
    rw [fail1 hashFn db username password now h1, fail2 hf2 db2 u2 p2 now2 row h2 hv]
  · intro hs
    unfold authenticate_user at hs ⊢
    rcases hfind : db.rows.find? (fun r => r.username == username) with _ | row
    · rw [hfind] at hs
      simp at hs
    · rw [hfind] at hs ⊢
      by_cases hv : verify_password hashFn password row.password_hash = true
      · refine ⟨row, rfl, hv, ?_⟩
        simp [hv]
      · exfalso
        simp only [Bool.not_eq_true] at hv
        simp [hv] at hs

/-- Witness for C9: unknown user on an empty store fails with
`(False, None)`. -/
theorem authenticate_indistinguishable_witness :
    (authenticate_user (fun s => s) { rows := [], next_id := 1 } "bob" "pw" 0).1
      = (false, none) :=
  (authenticate_indistinguishable (fun s => s)
    { rows := [], next_id := 1 } "bob" "pw" 0).1 rfl

/-- C10: the categorical tests are exact, case-sensitive string membership
checks: a smoking status outside the two exact trigger strings contributes
nothing to the cardiovascular and stroke scores, and similarly for alcohol
and exercise; near-miss strings (different casing, `Former smoker`) are
non-members — unlike the family-history test, which matches
case-insensitively. -/
theorem categorical_tests_exact :
    (∀ d : PatientData, d.smoking_status ∉ (["Current smoker", "Heavy smoker"] : List String) →
        cv_risk_score d = cv_risk_score { d with smoking_status := "Never smoked" } ∧
        stroke_risk_score d = stroke_risk_score { d with smoking_status := "Never smoked" }) ∧
    ("Former smoker" ∉ (["Current smoker", "Heavy smoker"] : List String) ∧
     "current smoker" ∉ (["Current smoker", "Heavy smoker"] : List String) ∧
     "CURRENT SMOKER" ∉ (["Current smoker", "Heavy smoker"] : List String)) ∧
    (∀ d : PatientData, d.alcohol_consumption ∉ (["Heavy drinker", "Daily"] : List String) →
        hypertension_risk_score d
          = hypertension_risk_score { d with alcohol_consumption := "Never" }) ∧
    ("heavy drinker" ∉ (["Heavy drinker", "Daily"] : List String) ∧
     "daily" ∉ (["Heavy drinker", "Daily"] : List String)) ∧
    (∀ d : PatientData, d.exercise_frequency ∉ (["Never", "Rarely"] : List String) →
        diabetes_risk_score d = diabetes_risk_score { d with exercise_frequency := "Daily" }) ∧
    ("never" ∉ (["Never", "Rarely"] : List String)) ∧
    (famHas "heart disease" (some "HEART DISEASE") = true) := by
  refine ⟨?_, ⟨by decide, by decide, by decide⟩, ?_, ⟨by decide, by decide⟩, ?_,
         by decide, by decide⟩
  · intro d h
    have h2 : "Never smoked" ∉ (["Current smoker", "Heavy smoker"] : List String) := by decide
    constructor
    · simp [cv_risk_score, h, h2]
    · simp [stroke_risk_score, h, h2]
  · intro d h
    have h2 : "Never" ∉ (["Heavy drinker", "Daily"] : List String) := by decide
    simp [hypertension_risk_score, h, h2]
  · intro d h
    have h2 : "Daily" ∉ (["Never", "Rarely"] : List String) := by decide
    simp [diabetes_risk_score, h, h2]

/-- Witness for C10: a former smoker scores like a never-smoker. -/
theorem categorical_tests_exact_witness :
    cv_risk_score nearMissRecord
        = cv_risk_score { nearMissRecord with smoking_status := "Never smoked" } ∧
    stroke_risk_score nearMissRecord
        = stroke_risk_score { nearMissRecord with smoking_status := "Never smoked" } :=
  categorical_tests_exact.1 nearMissRecord (by decide)

end DiseasePredictor
